import Mathlib

/-!
Verification of the price-elasticity retail analysis core
(`price_elasticity_model.py`) through a shallow embedding.

Numeric columns are embedded as exact rationals (`ℚ`); the single place the
code produces a genuinely irrational scalar (the Pearson correlation, which
divides by a square root of variances) is embedded over `ℝ`.  A pandas `NaN`
arising from an aggregate over an empty column is embedded as `Option.none`,
and Python's `None` sentinel for "not yet loaded / not yet estimated" state is
embedded as the outer `Option.none` of the corresponding accessor argument.
The statsmodels OLS fit of `log_sales` on `log_price` is external
floating-point/transcendental library code; it is abstracted as an explicit
`fit` parameter of `calculate_elasticity`, and every theorem about the
estimator quantifies over all possible fit outcomes.
-/

namespace Retail

/-- One cleaned observation (a row of `self.df` restricted to the three
canonical columns the core reads): `category`, `price`, `sales`. -/
structure Record where
  category : String
  price : ℚ
  sales : ℚ
deriving DecidableEq, Repr

/-- One row of the enriched per-category result table built by
`calculate_elasticity` (columns of the `elasticity_results` DataFrame).
`demand_type` and `can_increase_price` hold the strings the Python code
stores in those columns. -/
structure CategoryRow where
  category : String
  elasticity : ℚ
  p_value : ℚ
  r_squared : ℚ
  avg_price : ℚ
  median_price : ℚ
  total_sales : ℚ
  num_products : ℕ
  demand_type : String
  can_increase_price : String
deriving DecidableEq, Repr

/-- One row of the result table before the two classification columns are
appended (the dict literal built inside the per-category loop,
`price_elasticity_model.py` lines 94-103). -/
structure FitRow where
  category : String
  elasticity : ℚ
  p_value : ℚ
  r_squared : ℚ
  avg_price : ℚ
  median_price : ℚ
  total_sales : ℚ
  num_products : ℕ
deriving DecidableEq, Repr

/-- Embeds the dict returned by `simulate_price_change` (lines 188-198).
All fields are the exact expressions the source stores, including the
`* 100` scaling of the three percentage fields. -/
structure SimulationResult where
  category : String
  current_price : ℚ
  new_price : ℚ
  elasticity : ℚ
  price_change_pct : ℚ
  quantity_change_pct : ℚ
  revenue_change_pct : ℚ
  estimated_revenue_impact : ℚ
  current_total_sales : ℚ
deriving DecidableEq, Repr

/-- Embeds the dict returned by `get_summary_stats` (lines 208-216).  The two
mean fields are `Option ℚ` because the pandas `.mean()` of an empty column is
`NaN`, embedded as `none`. -/
structure SummaryStats where
  total_categories : ℕ
  inelastic_categories : ℕ
  elastic_categories : ℕ
  inelastic_pct : ℚ
  avg_elasticity : Option ℚ
  significant_results : ℕ
  avg_r_squared : Option ℚ
deriving DecidableEq, Repr

/-- Embeds Python's built-in `abs` on a rational, kept executable so that
classification results can be evaluated on concrete inputs. -/
def qabs (q : ℚ) : ℚ := if q < 0 then -q else q

/-- Embeds `PriceElasticityModel._classify_demand` (lines 121-133): the
if/elif chain on `abs(elasticity)` with thresholds 0.5, 1, 1.5, returning the
label strings of the source. -/
def classifyDemand (elasticity : ℚ) : String :=
  if qabs elasticity < 1/2 then "Highly Inelastic"
  else if qabs elasticity < 1 then "Inelastic"
  else if qabs elasticity = 1 then "Unit Elastic"
  else if 1 < qabs elasticity ∧ qabs elasticity < 3/2 then "Elastic"
  else "Highly Elastic"

/-- Written from the words of the spec (section 4.3), for comparison with
`classifyDemand`: disjoint threshold bands on `|elasticity|`, namely
`< 0.5`, `[0.5, 1)`, `= 1`, `(1, 1.5)` and `>= 1.5`, using the label
strings the source stores for the respective regimes. -/
def specClassifyDemand (elasticity : ℚ) : String :=
  if |elasticity| < 1/2 then "Highly Inelastic"
  else if 1/2 ≤ |elasticity| ∧ |elasticity| < 1 then "Inelastic"
  else if |elasticity| = 1 then "Unit Elastic"
  else if 1 < |elasticity| ∧ |elasticity| < 3/2 then "Elastic"
  else "Highly Elastic"

/-- Embeds the lambda of `calculate_elasticity` lines 115-117:
`'No' if x > 1 else 'Yes'` applied to the signed elasticity. -/
def canIncreasePrice (elasticity : ℚ) : String :=
  if 1 < elasticity then "No" else "Yes"

/-- Stable insertion of an element into an ascending-sorted list, placing it
after every element whose key is less than or equal to its own.  Building
block for the embedding of the numpy ascending argsort used by pandas. -/
def insertAscBy (key : α → ℚ) : List α → α → List α
  | [], r => [r]
  | x :: xs, r => if key x ≤ key r then x :: insertAscBy key xs r else r :: x :: xs

/-- Stable ascending sort by a rational key (insertion sort). -/
def sortAscBy (key : α → ℚ) (l : List α) : List α := l.foldl (insertAscBy key) []

/-- Embeds `DataFrame.sort_values(by, ascending=False)` for a single numeric
column.  `pandas.core.sorting.nargsort` implements descending order by
reversing both the values and their positions before the ascending argsort
and reversing the resulting indexer afterwards — the standard
stable-descending construction (pandas GH#6399), under which rows with equal
keys keep their original relative order whenever the underlying argsort is
stable, as numpy's argsort is on the small arrays evaluated here (its
quicksort degenerates to insertion sort).  The embedding mirrors this
exactly: reverse the input, sort it ascending with a stable insertion sort,
and reverse the output. -/
def sortDescBy (key : α → ℚ) (l : List α) : List α :=
  (sortAscBy key l.reverse).reverse

/-- Embeds `Series.unique()` on the category column: the distinct category
labels in order of first appearance (line 74). -/
def uniqueCategories (df : List Record) : List String :=
  df.foldl (fun acc r => if r.category ∈ acc then acc else acc ++ [r.category]) []

/-- Embeds the pandas `Series.mean()` of a nonempty column. -/
def qmean (l : List ℚ) : ℚ := l.sum / l.length

/-- Embeds the pandas `Series.median()` of a nonempty column: the middle of
the sorted values, or the average of the two middle values for even length. -/
def qmedian (l : List ℚ) : ℚ :=
  let s := sortAscBy id l
  if l.length % 2 = 1 then s.getD (l.length / 2) 0
  else (s.getD (l.length / 2 - 1) 0 + s.getD (l.length / 2) 0) / 2

/-- Embeds the pandas `Series.mean()` aggregate including its empty-column
behavior: `NaN` (here `none`) on an empty column, else the arithmetic mean. -/
def meanOrNaN (l : List ℚ) : Option ℚ :=
  if l.length = 0 then none else some (l.sum / l.length)

/-- Embeds the per-category loop of `calculate_elasticity` (lines 72-106):
the rows appended to `elasticity_results`, in insertion order, before
sorting.  The `fit` argument abstracts the statsmodels call `sm.OLS(log_sales,
add_constant(log_price)).fit()` of lines 81-92 together with its `except`
clause: applied to a category's records it returns `some (elasticity,
p_value, r_squared)` on success and `none` when the regression raises (the
category is then skipped, line 104).  Per category with at least
`min_observations` records the descriptive columns are computed from the raw
`price`/`sales` values exactly as in lines 99-102. -/
def assembleFitRows (fit : List Record → Option (ℚ × ℚ × ℚ))
    (df : List Record) (min_observations : ℕ) : List FitRow :=
  (uniqueCategories df).filterMap fun c =>
    let cat_data := df.filter (fun r => decide (r.category = c))
    if cat_data.length < min_observations then none
    else (fit cat_data).map fun t =>
      { category := c, elasticity := t.1, p_value := t.2.1, r_squared := t.2.2,
        avg_price := qmean (cat_data.map (fun r => r.price)),
        median_price := qmedian (cat_data.map (fun r => r.price)),
        total_sales := (cat_data.map (fun r => r.sales)).sum,
        num_products := cat_data.length }

/-- Embeds the per-row enrichment of lines 112-117: the `demand_type` and
`can_increase_price` columns computed from the row's elasticity. -/
def enrichRow (r : FitRow) : CategoryRow :=
  { category := r.category, elasticity := r.elasticity, p_value := r.p_value,
    r_squared := r.r_squared, avg_price := r.avg_price,
    median_price := r.median_price, total_sales := r.total_sales,
    num_products := r.num_products,
    demand_type := classifyDemand r.elasticity,
    can_increase_price := canIncreasePrice r.elasticity }

/-- Embeds `PriceElasticityModel.calculate_elasticity` (lines 59-119): the
assembled per-category rows (see `assembleFitRows`) are sorted by
`elasticity` descending (line 109, see `sortDescBy`) and the two
classification columns are appended (lines 112-117, see `enrichRow`). -/
def calculate_elasticity (fit : List Record → Option (ℚ × ℚ × ℚ))
    (df : List Record) (min_observations : ℕ) : List CategoryRow :=
  (sortDescBy (fun r => r.elasticity)
    (assembleFitRows fit df min_observations)).map enrichRow

/-- Embeds `PriceElasticityModel.get_inelastic_categories` (lines 135-141):
an empty frame when no estimation has run, otherwise the rows with
`elasticity < 1` sorted by `avg_price` descending. -/
def get_inelastic_categories (results : Option (List CategoryRow)) :
    List CategoryRow :=
  match results with
  | none => []
  | some rs =>
    sortDescBy (fun r => r.avg_price) (rs.filter (fun r => decide (r.elasticity < 1)))

/-- Embeds `PriceElasticityModel.simulate_price_change` (lines 151-198).
The first argument is `self.elasticity_results`: `none` embeds the Python
`None` state before `calculate_elasticity` ran.  The row lookup keeps the
first row whose `category` column equals the argument (`.iloc[0]` of the
boolean-filtered frame); an empty match returns `none` (Python `None`). -/
def simulate_price_change (results : Option (List CategoryRow)) (category : String)
    (price_change_pct : ℚ) : Option SimulationResult :=
  match results with
  | none => none
  | some rs =>
    match (rs.filter (fun r => decide (r.category = category))).head? with
    | none => none
    | some row =>
      let elasticity := row.elasticity
      let quantity_change := elasticity * price_change_pct
      let revenue_change := (1 + price_change_pct) * (1 + quantity_change) - 1
      some
        { category := category
          current_price := row.avg_price
          new_price := row.avg_price * (1 + price_change_pct)
          elasticity := elasticity
          price_change_pct := price_change_pct * 100
          quantity_change_pct := quantity_change * 100
          revenue_change_pct := revenue_change * 100
          estimated_revenue_impact := row.total_sales * revenue_change
          current_total_sales := row.total_sales }

/-- Embeds `PriceElasticityModel.get_summary_stats` (lines 200-216); `none`
input embeds the `elasticity_results is None` state. -/
def get_summary_stats (results : Option (List CategoryRow)) : Option SummaryStats :=
  results.map fun rs =>
    let inelastic_count := (rs.filter (fun r => decide (r.elasticity < 1))).length
    let total_count := rs.length
    { total_categories := total_count
      inelastic_categories := inelastic_count
      elastic_categories := total_count - inelastic_count
      inelastic_pct :=
        if 0 < total_count then (inelastic_count : ℚ) / total_count * 100 else 0
      avg_elasticity := meanOrNaN (rs.map (fun r => r.elasticity))
      significant_results := (rs.filter (fun r => decide (r.p_value < 1/20))).length
      avg_r_squared := meanOrNaN (rs.map (fun r => r.r_squared)) }

/-- Concrete result row used to exercise the simulator: elasticity 0.6,
average price 100, total sales 50000 (the scenario of claim C1). -/
def rowX : CategoryRow :=
  { category := "X", elasticity := 3/5, p_value := 1/100, r_squared := 1/2,
    avg_price := 100, median_price := 100, total_sales := 50000,
    num_products := 10, demand_type := "Inelastic", can_increase_price := "Yes" }

/-- Fit outcome that assigns every category the same elasticity 0.5 (with
p-value 0.01 and R² 0.5), used to build result sets with ties. -/
def constFit : List Record → Option (ℚ × ℚ × ℚ) := fun _ => some (1/2, 1/100, 1/2)

/-- Fit outcome whose elasticity is the sum of the category's prices, used to
build result sets with distinct elasticities. -/
def sumFit : List Record → Option (ℚ × ℚ × ℚ) :=
  fun cd => some ((cd.map (fun r => r.price)).sum, 0, 0)

/-- One-record dataset with a single category "A". -/
def dfA : List Record := [{ category := "A", price := 2, sales := 3 }]

/-- Two-record dataset with categories "A" then "B" and identical columns,
producing tied elasticities under `constFit`. -/
def dfAB : List Record :=
  [{ category := "A", price := 2, sales := 3 },
   { category := "B", price := 2, sales := 3 }]

/-- Two-record dataset with categories "A" then "B" and distinct prices,
producing distinct elasticities under `sumFit`. -/
def dfW : List Record :=
  [{ category := "A", price := 1, sales := 1 },
   { category := "B", price := 2, sales := 1 }]

/-- Result row produced by running the estimator on `dfA` with `constFit`. -/
def rowA : CategoryRow :=
  { category := "A", elasticity := 1/2, p_value := 1/100, r_squared := 1/2,
    avg_price := 2, median_price := 2, total_sales := 3, num_products := 1,
    demand_type := "Inelastic", can_increase_price := "Yes" }

/-- Default row for positional `getD` indexing into a result set. -/
def defaultRow : CategoryRow :=
  { category := "", elasticity := 0, p_value := 0, r_squared := 0,
    avg_price := 0, median_price := 0, total_sales := 0, num_products := 0,
    demand_type := "", can_increase_price := "" }

/-- Embeds the dict returned by `load_data` (lines 52-57). -/
structure LoadReport where
  original_size : ℕ
  cleaned_size : ℕ
  removed_records : ℕ
  removal_pct : ℚ
deriving DecidableEq, Repr

/-- Error raised while loading: the pandas `KeyError` that
`dropna(subset=['price', 'sales'])` raises when subset labels are absent
from the frame, carrying the missing labels. -/
inductive LoadErr where
  | keyError (missing : List String)
deriving DecidableEq, Repr

/-- A raw tabular source as read by `pd.read_csv`: a header of column names
and rows of cells aligned with the header by position.  Cells are numeric or
missing (`none` embeds `NaN`); only the price and sales columns are ever
interpreted numerically by the loader, so this suffices for its claims. -/
structure Frame where
  header : List String
  rows : List (List (Option ℚ))
deriving DecidableEq, Repr

/-- Embeds the `rename(columns=...)` call of lines 39-43: each header label
is looked up in the dict `(price_col : 'price', sales_col : 'sales',
category_col : 'category')`; absent labels are left untouched (pandas rename
does not raise on keys that match no column).  When selectors coincide the
later dict entry wins, matching Python dict-literal semantics. -/
def renameHeader (price_col sales_col category_col : String)
    (hdr : List String) : List String :=
  hdr.map fun n =>
    if n = category_col then "category"
    else if n = sales_col then "sales"
    else if n = price_col then "price"
    else n

/-- Embeds `PriceElasticityModel.load_data` (lines 20-57) applied to an
already-parsed frame.  After renaming, `dropna(subset=['price', 'sales'])`
first checks that both subset labels exist and raises a `KeyError` naming the
missing ones otherwise; it then drops rows with a missing cell in either
column, and the subsequent boolean filter keeps rows with `price > 0` and
`sales > 0`.  The returned report mirrors the dict of lines 52-57, including
the division-by-zero guard on `removal_pct`.  Note the category column is
never checked: renaming ignores an absent selector and neither filter touches
that column. -/
def load_data (f : Frame) (price_col sales_col category_col : String) :
    Except LoadErr (Frame × LoadReport) :=
  let hdr := renameHeader price_col sales_col category_col f.header
  let missing := ["price", "sales"].filter (fun n => decide (¬ n ∈ hdr))
  if missing = [] then
    let ixp := hdr.findIdx (fun n => decide (n = "price"))
    let ixs := hdr.findIdx (fun n => decide (n = "sales"))
    let rows1 := f.rows.filter
      (fun row => (row.getD ixp none).isSome && (row.getD ixs none).isSome)
    let rows2 := rows1.filter (fun row =>
      decide (0 < (row.getD ixp none).getD 0) &&
      decide (0 < (row.getD ixs none).getD 0))
    Except.ok (⟨hdr, rows2⟩,
      { original_size := f.rows.length
        cleaned_size := rows2.length
        removed_records := f.rows.length - rows2.length
        removal_pct :=
          if 0 < f.rows.length then
            ((f.rows.length - rows2.length : ℕ) : ℚ) / f.rows.length * 100
          else 0 })
  else Except.error (LoadErr.keyError missing)

/-- Source frame whose three columns match the selectors "P", "S", "C"; one
valid row, one row with a missing price, one row with a negative sales
value. -/
def frameGood : Frame :=
  ⟨["P", "S", "C"],
   [[some 2, some 3, none], [none, some 1, none], [some 1, some (-1), none]]⟩

/-- The cleaned frame `load_data` produces from `frameGood`. -/
def cleanedGood : Frame := ⟨["price", "sales", "category"], [[some 2, some 3, none]]⟩

/-- The report `load_data` produces from `frameGood`. -/
def repGood : LoadReport :=
  { original_size := 3, cleaned_size := 1, removed_records := 2,
    removal_pct := 200/3 }

/-- Source frame with no rows, to exercise the `original_size == 0` guard. -/
def frameEmpty : Frame := ⟨["P", "S", "C"], []⟩

/-- The cleaned frame `load_data` produces from `frameEmpty`. -/
def cleanedEmpty : Frame := ⟨["price", "sales", "category"], []⟩

/-- The report `load_data` produces from `frameEmpty`. -/
def repEmpty : LoadReport :=
  { original_size := 0, cleaned_size := 0, removed_records := 0, removal_pct := 0 }

/-- Source frame whose columns "P" and "S" match the price and sales
selectors but which has no column matching the category selector "C". -/
def frameNoCat : Frame := ⟨["P", "S", "X"], [[some 1, some 2, some 3]]⟩

/-- Sum of centered cross products of the paired price and sales columns of
the cleaned dataset (numerator of the Pearson correlation computed by
`self.df['price'].corr(self.df['sales'])`; the `1/(n-1)` normalizations of
covariance and standard deviations cancel in the ratio). -/
def covXY (xs : List (ℚ × ℚ)) : ℚ :=
  (xs.map (fun q =>
    (q.1 - qmean (xs.map Prod.fst)) * (q.2 - qmean (xs.map Prod.snd)))).sum

/-- Sum of squared deviations of the price column from its mean. -/
def varX (xs : List (ℚ × ℚ)) : ℚ :=
  (xs.map (fun q => (q.1 - qmean (xs.map Prod.fst)) ^ 2)).sum

/-- Sum of squared deviations of the sales column from its mean. -/
def varY (xs : List (ℚ × ℚ)) : ℚ :=
  (xs.map (fun q => (q.2 - qmean (xs.map Prod.snd)) ^ 2)).sum

/-- The Pearson correlation scalar on non-degenerate data:
`covXY / sqrt (varX * varY)`.  Lives in `ℝ` because of the square root; this
is the single irrational value the core produces. -/
noncomputable def pearsonVal (xs : List (ℚ × ℚ)) : ℝ :=
  (covXY xs : ℝ) / Real.sqrt ((varX xs : ℝ) * (varY xs : ℝ))

/-- Embeds `Series.corr`: on fewer than two records or zero variance in
either column pandas produces `NaN` (embedded `none`) rather than raising;
otherwise the Pearson coefficient. -/
noncomputable def pearson (xs : List (ℚ × ℚ)) : Option ℝ :=
  if 2 ≤ xs.length ∧ varX xs ≠ 0 ∧ varY xs ≠ 0 then some (pearsonVal xs) else none

/-- Embeds `PriceElasticityModel.get_correlation` (lines 218-222): `none`
when no dataset is loaded (`self.df is None`), otherwise the pandas
correlation of the price and sales columns, paired row by row. -/
noncomputable def get_correlation (df : Option (List (ℚ × ℚ))) : Option (Option ℝ) :=
  df.map pearson

/-- Two-record dataset with perfectly linear price/sales pairs. -/
def xsW : List (ℚ × ℚ) := [(1, 1), (2, 2)]

/-! Theorems. -/

theorem qabs_eq_abs (q : ℚ) : qabs q = |q| := by
  unfold qabs
  by_cases h : q < 0
  · rw [if_pos h, abs_of_neg h]
  · rw [if_neg h, abs_of_nonneg (le_of_not_lt h)]

theorem qabs_of_abs (q : ℚ) : qabs |q| = qabs q := by
  rw [qabs_eq_abs, qabs_eq_abs, abs_abs]

/-- Claim C2: `classifyDemand` depends only on the absolute value of the
elasticity and agrees everywhere with the spec's threshold bands
(`< 0.5` highly inelastic, `[0.5, 1)` inelastic, `= 1` unit elastic,
`(1, 1.5)` elastic, `>= 1.5` highly elastic), and in particular maps
0.3, 0.7, 1.0, 1.2, 2.0 and -1.2 to the labels the claim lists. -/
theorem c2_classify :
    (∀ e : ℚ, classifyDemand e = specClassifyDemand e ∧
      classifyDemand e = classifyDemand |e|) ∧
    classifyDemand (3/10) = "Highly Inelastic" ∧
    classifyDemand (7/10) = "Inelastic" ∧
    classifyDemand 1 = "Unit Elastic" ∧
    classifyDemand (6/5) = "Elastic" ∧
    classifyDemand 2 = "Highly Elastic" ∧
    classifyDemand (-6/5) = "Elastic" := by
  refine ⟨fun e => ⟨?_, ?_⟩, by norm_num [classifyDemand, qabs],
    by norm_num [classifyDemand, qabs], by norm_num [classifyDemand, qabs],
    by norm_num [classifyDemand, qabs], by norm_num [classifyDemand, qabs],
    by norm_num [classifyDemand, qabs]⟩
  · unfold classifyDemand specClassifyDemand
    rw [qabs_eq_abs]
    by_cases h1 : |e| < 1/2
    · rw [if_pos h1, if_pos h1]
    · rw [if_neg h1, if_neg h1]
      by_cases h2 : |e| < 1
      · rw [if_pos h2, if_pos (show 1/2 ≤ |e| ∧ |e| < 1 from ⟨le_of_not_lt h1, h2⟩)]
      · rw [if_neg h2, if_neg (show ¬(1/2 ≤ |e| ∧ |e| < 1) from fun hc => h2 hc.2)]
  · simp only [classifyDemand, qabs_of_abs]

/-- Claim C1, counterexample: in the scenario of the claim (elasticity 0.6,
price change 0.05) the returned `quantity_change_pct` field is 3 — the
fraction 0.03 multiplied by 100 at line 194 — and not 0.03 as the claim
states. -/
theorem c1_counterexample :
    (simulate_price_change (some [rowX]) "X" (1/20)).map
        (fun s => s.quantity_change_pct) = some 3 ∧
    (simulate_price_change (some [rowX]) "X" (1/20)).map
        (fun s => s.quantity_change_pct) ≠ some (3/100) := by
  norm_num [simulate_price_change, rowX, List.filter]

/-- Claim C1 (amended): for the first result row matching the requested
category, `simulate_price_change` returns `new_price = avg_price * (1 +
price_change_pct)` and `estimated_revenue_impact = total_sales * ((1 +
price_change_pct) * (1 + elasticity * price_change_pct) - 1)` as claimed, but
the three percentage fields are returned multiplied by 100: in particular
`quantity_change_pct = elasticity * price_change_pct * 100` and
`revenue_change_pct = ((1 + price_change_pct) * (1 + elasticity *
price_change_pct) - 1) * 100`. -/
theorem c1_simulate_formulas (rs : List CategoryRow) (cat : String) (pct : ℚ)
    (row : CategoryRow)
    (h : (rs.filter (fun r => decide (r.category = cat))).head? = some row) :
    simulate_price_change (some rs) cat pct = some
      { category := cat
        current_price := row.avg_price
        new_price := row.avg_price * (1 + pct)
        elasticity := row.elasticity
        price_change_pct := pct * 100
        quantity_change_pct := row.elasticity * pct * 100
        revenue_change_pct := ((1 + pct) * (1 + row.elasticity * pct) - 1) * 100
        estimated_revenue_impact :=
          row.total_sales * ((1 + pct) * (1 + row.elasticity * pct) - 1)
        current_total_sales := row.total_sales } := by
  simp only [simulate_price_change, h]

/-- Claim C1, witness: evaluating the amended theorem at the claim's scenario
(elasticity 0.6, avg price 100, total sales 50000, price change 0.05) gives
new price 105, quantity change 3 percent, revenue change 8.15 percent and a
revenue impact of 4075. -/
theorem c1_witness :
    simulate_price_change (some [rowX]) "X" (1/20) = some
      { category := "X", current_price := 100, new_price := 105,
        elasticity := 3/5, price_change_pct := 5, quantity_change_pct := 3,
        revenue_change_pct := 163/20, estimated_revenue_impact := 4075,
        current_total_sales := 50000 } := by
  have h := c1_simulate_formulas [rowX] "X" (1/20) rowX
    (by norm_num [rowX, List.filter])
  rw [h]
  norm_num [rowX]

/-- Claim C7: when no row of the result set matches the requested category,
`simulate_price_change` returns the absent value (Python `None`), not a
default result (lines 169-174). -/
theorem c7_not_found (rs : List CategoryRow) (cat : String) (pct : ℚ)
    (h : ∀ row ∈ rs, row.category ≠ cat) :
    simulate_price_change (some rs) cat pct = none := by
  have hf : rs.filter (fun r => decide (r.category = cat)) = [] := by
    rw [List.filter_eq_nil_iff]
    intro a ha
    simp [h a ha]
  simp only [simulate_price_change, hf, List.head?]

/-- Claim C7, witness: simulating category "Y" against a result set whose
only row is for category "X" yields the absent value. -/
theorem c7_witness : simulate_price_change (some [rowX]) "Y" (1/20) = none :=
  c7_not_found [rowX] "Y" (1/20) (by simp [rowX])

/-- Claim C4, counterexample: on a zero-row result set the summary's
`avg_elasticity` is the pandas mean of an empty column, i.e. `NaN` (embedded
`none`), not 0 as the claim states. -/
theorem c4_counterexample :
    (get_summary_stats (some ([] : List CategoryRow))).map
        (fun s => s.avg_elasticity) = some none ∧
    (get_summary_stats (some ([] : List CategoryRow))).map
        (fun s => s.avg_elasticity) ≠ some (some 0) := by
  simp [get_summary_stats, meanOrNaN]

/-- Claim C4 (amended): on a zero-row result set `get_summary_stats` returns
counts 0 and `inelastic_pct = 0` (the only guarded division), but
`avg_elasticity` and `avg_r_squared` are `NaN` (the unguarded pandas mean of
an empty column), not 0. -/
theorem c4_empty_summary :
    get_summary_stats (some ([] : List CategoryRow)) = some
      { total_categories := 0, inelastic_categories := 0,
        elastic_categories := 0, inelastic_pct := 0, avg_elasticity := none,
        significant_results := 0, avg_r_squared := none } := by
  simp [get_summary_stats, meanOrNaN]

theorem mem_insertAscBy (key : α → ℚ) (l : List α) (r a : α) :
    a ∈ insertAscBy key l r ↔ a ∈ l ∨ a = r := by
  induction l with
  | nil => simp [insertAscBy]
  | cons x xs ih =>
    unfold insertAscBy
    by_cases h : key x ≤ key r
    · rw [if_pos h]
      simp only [List.mem_cons, ih]
      tauto
    · rw [if_neg h]
      simp only [List.mem_cons]
      tauto

theorem pairwise_insertAscBy (key : α → ℚ) {l : List α}
    (hl : l.Pairwise (fun a b => key a ≤ key b)) (r : α) :
    (insertAscBy key l r).Pairwise (fun a b => key a ≤ key b) := by
  induction l with
  | nil => simp [insertAscBy]
  | cons x xs ih =>
    rw [List.pairwise_cons] at hl
    obtain ⟨hx, hxs⟩ := hl
    unfold insertAscBy
    by_cases h : key x ≤ key r
    · rw [if_pos h, List.pairwise_cons]
      refine ⟨?_, ih hxs⟩
      intro y hy
      rcases (mem_insertAscBy key xs r y).mp hy with hy | rfl
      · exact hx y hy
      · exact h
    · rw [if_neg h, List.pairwise_cons]
      refine ⟨?_, List.pairwise_cons.mpr ⟨hx, hxs⟩⟩
      intro y hy
      rcases List.mem_cons.mp hy with rfl | hy
      · exact le_of_not_le h
      · exact le_trans (le_of_not_le h) (hx y hy)

theorem pairwise_sortAscBy (key : α → ℚ) (l : List α) :
    (sortAscBy key l).Pairwise (fun a b => key a ≤ key b) := by
  suffices h : ∀ acc : List α, acc.Pairwise (fun a b => key a ≤ key b) →
      (l.foldl (insertAscBy key) acc).Pairwise (fun a b => key a ≤ key b) by
    exact h [] (by simp)
  induction l with
  | nil => exact fun acc hacc => hacc
  | cons x xs ih => exact fun acc hacc => ih _ (pairwise_insertAscBy key hacc x)

theorem pairwise_sortDescBy (key : α → ℚ) (l : List α) :
    (sortDescBy key l).Pairwise (fun a b => key b ≤ key a) := by
  unfold sortDescBy
  rw [List.pairwise_reverse]
  exact pairwise_sortAscBy key l.reverse

/-- Claim C3: `canIncreasePrice` answers "Yes" exactly when the signed
elasticity is at most 1 (not its absolute value: -3.0 also qualifies), with
the claim's three sample points, and the flag stored in every row of the
result set produced by `calculate_elasticity` is exactly this function of the
row's elasticity — the enrichment of lines 115-117, applied before the result
set is returned. -/
theorem c3_can_increase_price :
    (∀ e : ℚ, canIncreasePrice e = "Yes" ↔ e ≤ 1) ∧
    canIncreasePrice (4/5) = "Yes" ∧
    canIncreasePrice (3/2) = "No" ∧
    canIncreasePrice (-3) = "Yes" ∧
    (∀ (fit : List Record → Option (ℚ × ℚ × ℚ)) (df : List Record)
      (min_observations : ℕ),
      ∀ row ∈ calculate_elasticity fit df min_observations,
        row.can_increase_price = canIncreasePrice row.elasticity) := by
  refine ⟨?_, by norm_num [canIncreasePrice], by norm_num [canIncreasePrice],
    by norm_num [canIncreasePrice], ?_⟩
  · intro e
    unfold canIncreasePrice
    by_cases h : 1 < e
    · rw [if_pos h]
      constructor
      · intro hc
        exact absurd hc (by simp)
      · intro hle
        exact absurd h (not_lt.mpr hle)
    · rw [if_neg h]
      simp [le_of_not_lt h]
  · intro fit df mo row hrow
    simp only [calculate_elasticity] at hrow
    obtain ⟨r, _, rfl⟩ := List.mem_map.mp hrow
    rfl

/-- Claim C3, witness: on the one-category dataset `dfA` with the constant
fit the estimator produces exactly `rowA`, whose stored flag is "Yes" in
agreement with its elasticity 0.5 being at most 1. -/
theorem c3_witness :
    rowA ∈ calculate_elasticity constFit dfA 1 ∧
    (rowA.can_increase_price = "Yes" ↔ rowA.elasticity ≤ 1) := by
  have hmem : rowA ∈ calculate_elasticity constFit dfA 1 := by
    simp only [calculate_elasticity, assembleFitRows, enrichRow, constFit,
      dfA, uniqueCategories, qmean, qmedian, sortDescBy, sortAscBy,
      insertAscBy, rowA, classifyDemand, canIncreasePrice, qabs, List.filter,
      List.filterMap, List.foldl, List.map, List.sum, List.reverse]
    norm_num
  refine ⟨hmem, ?_⟩
  rw [c3_can_increase_price.2.2.2.2 constFit dfA 1 rowA hmem]
  exact c3_can_increase_price.1 rowA.elasticity

theorem filter_insertAscBy_of_ne (key : α → ℚ) (k : ℚ) (m : List α) (r : α)
    (hr : key r ≠ k) :
    (insertAscBy key m r).filter (fun x => decide (key x = k)) =
      m.filter (fun x => decide (key x = k)) := by
  induction m with
  | nil => simp [insertAscBy, hr]
  | cons x xs ih =>
    unfold insertAscBy
    by_cases h : key x ≤ key r
    · rw [if_pos h]
      simp only [List.filter_cons, ih]
    · rw [if_neg h]
      simp [List.filter_cons, hr]

theorem filter_insertAscBy_of_eq (key : α → ℚ) (k : ℚ) {m : List α}
    (hm : m.Pairwise (fun a b => key a ≤ key b)) (r : α) (hr : key r = k) :
    (insertAscBy key m r).filter (fun x => decide (key x = k)) =
      m.filter (fun x => decide (key x = k)) ++ [r] := by
  induction m with
  | nil => simp [insertAscBy, hr]
  | cons x xs ih =>
    rw [List.pairwise_cons] at hm
    obtain ⟨hx, hxs⟩ := hm
    unfold insertAscBy
    by_cases h : key x ≤ key r
    · rw [if_pos h]
      simp only [List.filter_cons, ih hxs]
      by_cases hxk : key x = k
      · simp [hxk]
      · simp [hxk]
    · rw [if_neg h]
      have hgt : k < key x := by
        rw [← hr]
        exact lt_of_not_le h
      have hnil : (x :: xs).filter (fun y => decide (key y = k)) = [] := by
        rw [List.filter_eq_nil_iff]
        intro a ha
        simp only [decide_eq_true_eq]
        rcases List.mem_cons.mp ha with rfl | ha
        · exact ne_of_gt hgt
        · exact ne_of_gt (lt_of_lt_of_le hgt (hx a ha))
      simp [List.filter_cons, hr, hnil]

theorem filter_sortAscBy_foldl (key : α → ℚ) (k : ℚ) (l : List α) :
    ∀ acc : List α, acc.Pairwise (fun a b => key a ≤ key b) →
      (l.foldl (insertAscBy key) acc).filter (fun x => decide (key x = k)) =
        acc.filter (fun x => decide (key x = k)) ++
          l.filter (fun x => decide (key x = k)) := by
  induction l with
  | nil =>
    intro acc _
    simp
  | cons x xs ih =>
    intro acc hacc
    rw [List.foldl_cons, ih (insertAscBy key acc x) (pairwise_insertAscBy key hacc x)]
    by_cases hx : key x = k
    · rw [filter_insertAscBy_of_eq key k hacc x hx]
      simp [List.filter_cons, hx]
    · rw [filter_insertAscBy_of_ne key k acc x hx]
      simp [List.filter_cons, hx]

theorem sortAscBy_stable (key : α → ℚ) (k : ℚ) (l : List α) :
    (sortAscBy key l).filter (fun x => decide (key x = k)) =
      l.filter (fun x => decide (key x = k)) := by
  unfold sortAscBy
  rw [filter_sortAscBy_foldl key k l [] (by simp)]
  simp

theorem sortDescBy_stable (key : α → ℚ) (k : ℚ) (l : List α) :
    (sortDescBy key l).filter (fun x => decide (key x = k)) =
      l.filter (fun x => decide (key x = k)) := by
  unfold sortDescBy
  rw [List.filter_reverse, sortAscBy_stable, List.filter_reverse,
    List.reverse_reverse]

/-- Claim C5: for every dataset, fit outcome and minimum observation count,
the result set produced by `calculate_elasticity` is sorted by elasticity in
descending order — for every adjacent pair of positions the later elasticity
is at most the earlier one — and rows with equal elasticity keep their
original insertion order: for every elasticity value, the output rows
carrying it are exactly the assembled rows carrying it, enriched, in their
assembly order (pandas' descending `sort_values` is stable, reversing the
input before and the output after a stable ascending argsort). -/
theorem c5_sorted_stable :
    (∀ (fit : List Record → Option (ℚ × ℚ × ℚ)) (df : List Record)
      (min_observations : ℕ) (i : ℕ)
      (h : i + 1 < (calculate_elasticity fit df min_observations).length),
      ((calculate_elasticity fit df min_observations).getD (i + 1) defaultRow).elasticity ≤
        ((calculate_elasticity fit df min_observations).getD i defaultRow).elasticity) ∧
    (∀ (fit : List Record → Option (ℚ × ℚ × ℚ)) (df : List Record)
      (min_observations : ℕ) (k : ℚ),
      (calculate_elasticity fit df min_observations).filter
          (fun r => decide (r.elasticity = k)) =
        ((assembleFitRows fit df min_observations).filter
          (fun r => decide (r.elasticity = k))).map enrichRow) := by
  constructor
  · intro fit df min_observations i h
    have hp : (calculate_elasticity fit df min_observations).Pairwise
        (fun a b => b.elasticity ≤ a.elasticity) := by
      simp only [calculate_elasticity]
      refine List.Pairwise.map _ ?_
        (pairwise_sortDescBy (fun r : FitRow => r.elasticity) _)
      intro a b hab
      exact hab
    rw [List.getD_eq_get _ _ h, List.getD_eq_get _ _ (Nat.lt_of_succ_lt h)]
    exact List.pairwise_iff_get.mp hp ⟨i, Nat.lt_of_succ_lt h⟩ ⟨i + 1, h⟩
      (Nat.lt_succ_self i)
  · intro fit df min_observations k
    simp only [calculate_elasticity]
    rw [List.filter_map]
    have hpred : ((fun r : CategoryRow => decide (r.elasticity = k)) ∘ enrichRow) =
        (fun r : FitRow => decide (r.elasticity = k)) := rfl
    rw [hpred, sortDescBy_stable]

/-- Claim C5, witness: on the two-category dataset `dfW` with the price-sum
fit the elasticity at position 1 is at most the elasticity at position 0,
and on the tied two-category dataset `dfAB` the rows with the tied
elasticity 0.5 come out exactly as assembled — concretely, the estimator
emits the tied categories in their insertion order `["A", "B"]`. -/
theorem c5_witness :
    (((calculate_elasticity sumFit dfW 1).getD (0 + 1) defaultRow).elasticity ≤
      ((calculate_elasticity sumFit dfW 1).getD 0 defaultRow).elasticity) ∧
    ((calculate_elasticity constFit dfAB 1).filter
        (fun r => decide (r.elasticity = 1/2)) =
      ((assembleFitRows constFit dfAB 1).filter
        (fun r => decide (r.elasticity = 1/2))).map enrichRow) ∧
    (calculate_elasticity constFit dfAB 1).map (fun r => r.category) = ["A", "B"] := by
  refine ⟨c5_sorted_stable.1 sumFit dfW 1 0 ?_,
    c5_sorted_stable.2 constFit dfAB 1 (1/2), ?_⟩
  · simp only [calculate_elasticity, assembleFitRows, enrichRow, sumFit, dfW,
      uniqueCategories, qmean, qmedian, sortDescBy, sortAscBy, insertAscBy,
      classifyDemand, canIncreasePrice, qabs, List.filter, List.filterMap,
      List.foldl, List.map, List.sum, List.reverse]
    norm_num
  · simp only [calculate_elasticity, assembleFitRows, constFit, dfAB,
      uniqueCategories, qmean, qmedian, sortDescBy, sortAscBy, insertAscBy,
      qabs, List.filter, List.filterMap, List.foldl, List.map, List.sum,
      List.reverse]
    norm_num [enrichRow]

/-- Claim C6: whenever `load_data` succeeds, every row of the cleaned frame
has a present, strictly positive price cell and a present, strictly positive
sales cell; the report satisfies `removed_records = original_size -
cleaned_size ≥ 0`; and `removal_pct = 0` when the source had no rows. -/
theorem c6_load_invariants (f : Frame) (price_col sales_col category_col : String)
    (g : Frame) (rep : LoadReport)
    (h : load_data f price_col sales_col category_col = .ok (g, rep)) :
    (∀ row ∈ g.rows,
      ∃ pv sv,
        row.getD (g.header.findIdx (fun n => decide (n = "price"))) none = some pv ∧
        0 < pv ∧
        row.getD (g.header.findIdx (fun n => decide (n = "sales"))) none = some sv ∧
        0 < sv) ∧
    (rep.removed_records : ℤ) = (rep.original_size : ℤ) - (rep.cleaned_size : ℤ) ∧
    0 ≤ (rep.removed_records : ℤ) ∧
    (rep.original_size = 0 → rep.removal_pct = 0) := by
  simp only [load_data] at h
  by_cases hm : (["price", "sales"].filter
      (fun n => decide (¬ n ∈ renameHeader price_col sales_col category_col f.header))) = []
  · rw [if_pos hm] at h
    rw [Except.ok.injEq, Prod.mk.injEq] at h
    obtain ⟨hg, hrep⟩ := h
    subst hg
    subst hrep
    refine ⟨?_, ?_, ?_, ?_⟩
    · intro row hrow
      obtain ⟨hrow1, hpos⟩ := List.mem_filter.mp hrow
      obtain ⟨_, hsome⟩ := List.mem_filter.mp hrow1
      rw [Bool.and_eq_true] at hsome hpos
      obtain ⟨hps, hss⟩ := hsome
      obtain ⟨hpp, hsp⟩ := hpos
      rw [decide_eq_true_eq] at hpp hsp
      obtain ⟨pv, hpv⟩ := Option.isSome_iff_exists.mp hps
      obtain ⟨sv, hsv⟩ := Option.isSome_iff_exists.mp hss
      rw [hpv] at hpp
      rw [hsv] at hsp
      exact ⟨pv, sv, hpv, hpp, hsv, hsp⟩
    · have hle : ((f.rows.filter fun row =>
          (row.getD (renameHeader price_col sales_col category_col f.header |>.findIdx
            fun n => decide (n = "price")) none).isSome &&
          (row.getD (renameHeader price_col sales_col category_col f.header |>.findIdx
            fun n => decide (n = "sales")) none).isSome).filter fun row =>
          decide (0 < (row.getD (renameHeader price_col sales_col category_col f.header
            |>.findIdx fun n => decide (n = "price")) none).getD 0) &&
          decide (0 < (row.getD (renameHeader price_col sales_col category_col f.header
            |>.findIdx fun n => decide (n = "sales")) none).getD 0)).length ≤
          f.rows.length :=
        le_trans (List.length_filter_le _ _) (List.length_filter_le _ _)
      simp only
      rw [Nat.cast_sub hle]
    · exact Int.natCast_nonneg _
    · intro h0
      simp only at h0 ⊢
      rw [if_neg (by rw [h0]; exact lt_irrefl 0)]
  · rw [if_neg hm] at h
    exact absurd h (by simp)

/-- Claim C6, witness: loading `frameGood` with selectors "P", "S", "C" keeps
exactly its one valid row, whose price and sales cells are present and
positive, and the report counts 3 original rows, 1 kept, 2 removed; loading
the rowless `frameEmpty` reports `removal_pct = 0`. -/
theorem c6_witness :
    (∃ pv sv,
      ([some 2, some 3, none] : List (Option ℚ)).getD
          (cleanedGood.header.findIdx (fun n => decide (n = "price"))) none = some pv ∧
      0 < pv ∧
      ([some 2, some 3, none] : List (Option ℚ)).getD
          (cleanedGood.header.findIdx (fun n => decide (n = "sales"))) none = some sv ∧
      0 < sv) ∧
    (repGood.removed_records : ℤ) = (repGood.original_size : ℤ) - (repGood.cleaned_size : ℤ) ∧
    0 ≤ (repGood.removed_records : ℤ) ∧
    repEmpty.removal_pct = 0 := by
  have hgood := c6_load_invariants frameGood "P" "S" "C" cleanedGood repGood
    (by simp [load_data, frameGood, renameHeader, cleanedGood, repGood,
      List.filter, List.findIdx_cons, List.getD]; norm_num)
  have hempty := c6_load_invariants frameEmpty "P" "S" "C" cleanedEmpty repEmpty
    (by simp [load_data, frameEmpty, renameHeader, cleanedEmpty, repEmpty,
      List.filter, List.findIdx_cons])
  refine ⟨?_, hgood.2.1, hgood.2.2.1, hempty.2.2.2 rfl⟩
  exact hgood.1 [some 2, some 3, none] (by simp [cleanedGood])

/-- Claim C9, counterexample: with the category selector "C" absent from the
source (columns "P", "S", "X"), `load_data` does not fail — it returns a
cleaned frame and a report, because pandas `rename` silently ignores missing
keys and `dropna` only checks the price and sales columns. -/
theorem c9_counterexample :
    load_data frameNoCat "P" "S" "C" =
      .ok (⟨["price", "sales", "X"], [[some 1, some 2, some 3]]⟩,
           { original_size := 1, cleaned_size := 1, removed_records := 0,
             removal_pct := 0 }) := by
  simp [load_data, frameNoCat, renameHeader, List.filter, List.findIdx_cons,
    List.getD]

/-- Claim C9 (amended): `load_data` fails iff the renamed header lacks the
canonical "price" or "sales" column — a missing category selector does not
fail the load — and the error is the `KeyError` listing exactly the absent
canonical names (not the caller's selector names). -/
theorem c9_schema_mismatch (f : Frame) (price_col sales_col category_col : String) :
    ((∃ e, load_data f price_col sales_col category_col = .error e) ↔
      ("price" ∉ renameHeader price_col sales_col category_col f.header ∨
       "sales" ∉ renameHeader price_col sales_col category_col f.header)) ∧
    (∀ e, load_data f price_col sales_col category_col = .error e →
      e = .keyError (["price", "sales"].filter
        (fun n => decide (¬ n ∈ renameHeader price_col sales_col category_col f.header)))) := by
  have hmiss : (["price", "sales"].filter
      (fun n => decide (¬ n ∈ renameHeader price_col sales_col category_col f.header))) = [] ↔
      ("price" ∈ renameHeader price_col sales_col category_col f.header ∧
       "sales" ∈ renameHeader price_col sales_col category_col f.header) := by
    by_cases h1 : "price" ∈ renameHeader price_col sales_col category_col f.header <;>
      by_cases h2 : "sales" ∈ renameHeader price_col sales_col category_col f.header <;>
      simp [List.filter, h1, h2]
  simp only [load_data]
  by_cases hm : (["price", "sales"].filter
      (fun n => decide (¬ n ∈ renameHeader price_col sales_col category_col f.header))) = []
  · rw [if_pos hm]
    obtain ⟨hp, hs⟩ := hmiss.mp hm
    constructor
    · refine iff_of_false ?_ ?_
      · rintro ⟨e, he⟩
        exact absurd he (by simp)
      · rintro (hc | hc)
        · exact hc hp
        · exact hc hs
    · intro e he
      exact absurd he (by simp)
  · rw [if_neg hm]
    constructor
    · refine iff_of_true ⟨LoadErr.keyError _, rfl⟩ ?_
      rcases not_and_or.mp (fun hc => hm (hmiss.mpr hc)) with hc | hc
      · exact Or.inl hc
      · exact Or.inr hc
    · intro e he
      rw [Except.error.injEq] at he
      exact he.symm

/-- Claim C9, witness: loading a frame with single column "Q" under
selectors "P", "S", "C" fails with the `KeyError` naming the canonical
"price" and "sales" columns. -/
theorem c9_witness :
    load_data ⟨["Q"], []⟩ "P" "S" "C" = .error (.keyError ["price", "sales"]) := by
  obtain ⟨e, he⟩ := (c9_schema_mismatch ⟨["Q"], []⟩ "P" "S" "C").1.mpr
    (Or.inl (by simp [renameHeader]))
  have h2 := (c9_schema_mismatch ⟨["Q"], []⟩ "P" "S" "C").2 e he
  rw [h2] at he
  exact he.trans (by simp [renameHeader, List.filter])

theorem sum_map_eq_fin_sum (l : List β) (f : β → ℚ) :
    (l.map f).sum = ∑ i : Fin l.length, f (l.get i) := by
  induction l with
  | nil => simp
  | cons x xs ih =>
    simp only [List.map_cons, List.sum_cons, ih, List.length_cons, Fin.sum_univ_succ]
    rfl

theorem covXY_sq_le (xs : List (ℚ × ℚ)) : covXY xs ^ 2 ≤ varX xs * varY xs := by
  unfold covXY varX varY
  rw [sum_map_eq_fin_sum, sum_map_eq_fin_sum, sum_map_eq_fin_sum]
  exact Finset.sum_mul_sq_le_sq_mul_sq Finset.univ
    (fun i => (xs.get i).1 - qmean (xs.map Prod.fst))
    (fun i => (xs.get i).2 - qmean (xs.map Prod.snd))

theorem varX_nonneg (xs : List (ℚ × ℚ)) : 0 ≤ varX xs := by
  unfold varX
  refine List.sum_nonneg ?_
  intro a ha
  obtain ⟨q, _, rfl⟩ := List.mem_map.mp ha
  exact sq_nonneg _

theorem varY_nonneg (xs : List (ℚ × ℚ)) : 0 ≤ varY xs := by
  unfold varY
  refine List.sum_nonneg ?_
  intro a ha
  obtain ⟨q, _, rfl⟩ := List.mem_map.mp ha
  exact sq_nonneg _

/-- Claim C8: on a cleaned dataset with fewer than 2 records or zero variance
in the price or sales column, `get_correlation` yields the `NaN` sentinel
(embedded `none`) rather than raising; on every other dataset it yields the
Pearson correlation coefficient of the two columns, a scalar lying in
[-1, 1]. -/
theorem c8_correlation (xs : List (ℚ × ℚ)) :
    ((xs.length < 2 ∨ varX xs = 0 ∨ varY xs = 0) →
      get_correlation (some xs) = some none) ∧
    (2 ≤ xs.length → varX xs ≠ 0 → varY xs ≠ 0 →
      get_correlation (some xs) = some (some (pearsonVal xs)) ∧
      -1 ≤ pearsonVal xs ∧ pearsonVal xs ≤ 1) := by
  constructor
  · intro hdeg
    simp only [get_correlation, Option.map_some', pearson]
    rw [if_neg ?_]
    rintro ⟨h2, hx, hy⟩
    rcases hdeg with h | h | h
    · exact absurd h2 (not_le.mpr h)
    · exact hx h
    · exact hy h
  · intro h2 hx hy
    have hvx : (0:ℚ) < varX xs := lt_of_le_of_ne (varX_nonneg xs) (Ne.symm hx)
    have hvy : (0:ℚ) < varY xs := lt_of_le_of_ne (varY_nonneg xs) (Ne.symm hy)
    have hprod : (0:ℝ) < (varX xs : ℝ) * (varY xs : ℝ) :=
      mul_pos (by exact_mod_cast hvx) (by exact_mod_cast hvy)
    have hs : 0 < Real.sqrt ((varX xs : ℝ) * (varY xs : ℝ)) :=
      Real.sqrt_pos.mpr hprod
    have hcs : ((covXY xs : ℝ)) ^ 2 ≤ (varX xs : ℝ) * (varY xs : ℝ) := by
      exact_mod_cast covXY_sq_le xs
    have hb : |pearsonVal xs| ≤ 1 := by
      unfold pearsonVal
      rw [abs_div, abs_of_pos hs]
      exact (div_le_one hs).mpr (Real.abs_le_sqrt hcs)
    refine ⟨?_, (abs_le.mp hb).1, (abs_le.mp hb).2⟩
    simp only [get_correlation, Option.map_some', pearson]
    rw [if_pos ⟨h2, hx, hy⟩]

/-- Claim C8, witness: on the empty dataset the correlation is the `NaN`
sentinel, and on the two-record dataset `xsW` (nonzero variance in both
columns) it is a defined scalar lying in [-1, 1]. -/
theorem c8_witness :
    get_correlation (some ([] : List (ℚ × ℚ))) = some none ∧
    get_correlation (some xsW) = some (some (pearsonVal xsW)) ∧
    -1 ≤ pearsonVal xsW ∧ pearsonVal xsW ≤ 1 := by
  have h2 := (c8_correlation xsW).2 (by norm_num [xsW])
    (by norm_num [varX, xsW, qmean]) (by norm_num [varY, xsW, qmean])
  exact ⟨(c8_correlation []).1 (Or.inl (by norm_num)), h2.1, h2.2.1, h2.2.2⟩

/-- Claim C10: before any estimation has run (`elasticity_results is None`)
`simulate_price_change` and `get_summary_stats` return the absent value and
`get_inelastic_categories` returns an empty result set; likewise
`get_correlation` returns the absent value when no dataset has been loaded
(`self.df is None`). -/
theorem c10_none_state :
    (∀ (cat : String) (pct : ℚ), simulate_price_change none cat pct = none) ∧
    get_summary_stats none = none ∧
    get_inelastic_categories none = [] ∧
    get_correlation none = none :=
  ⟨fun _ _ => rfl, rfl, rfl, rfl⟩

end Retail
